import Mathlib

/-!
Shallow embedding of `xtcav/ShotToShotCharacterization.py` (slaclab/xtcav2).

Floating-point values are modelled by `ℚ`.  Python/numpy exceptions are
modelled by `Except PyErr`; a Python method that *returns* `None` is an
`.ok none`, an uncaught exception is an `.error e`.  Warnings emitted via
`warnings.warn_explicit` are modelled as an explicit `List Warn` component
of the result.  External collaborator modules (`Utils`, `UtilsPsana`,
`SplittingUtils`, `Constants`, `Metrics`) are out of scope per the spec;
their per-event outputs (shot-to-shot validity, the denoised-image flag,
the detected ROI, the extracted per-bunch `ImageStats`, the computed
`PhysicalUnits`, the lasing-off reconstruction) are inputs of the embedded
pipeline functions, exactly at the call boundary of the source.
-/

namespace Xtcav

/-- Python / numpy exception kinds that the translated code can raise. -/
inductive PyErr where
  | attributeError
  | valueError
  | indexError
  | typeError
  deriving DecidableEq, Repr

/-- Warnings emitted through `warnings.warn_explicit` in the source. -/
inductive Warn where
  | noPulseChar
  | noImageProfile
  | unsupportedMethod (m : String)
  | numBunchesMismatch
  deriving DecidableEq, Repr

/-- Model of `np.zeros((n,), dtype=np.float64)`: numpy raises
`ValueError: negative dimensions are not allowed` for a negative size. -/
def npZeros (n : ℤ) : Except PyErr (List ℚ) :=
  if n < 0 then .error .valueError else .ok (List.replicate n.toNat 0)

/-- Maximum of a nonempty list of rationals (head-seeded left fold, as a
total function; callers that mirror `np.max` go through `npMax`). -/
def listMax : List ℚ → ℚ
  | [] => 0
  | x :: xs => xs.foldl max x

/-- Model of `np.max` on a 1-D array: `ValueError` on an empty array. -/
def npMax (l : List ℚ) : Except PyErr ℚ :=
  match l with
  | [] => .error .valueError
  | _ :: _ => .ok (listMax l)

/-- Model of `np.max` on a 2-D array (used on the raw camera image). -/
def npMax2 (img : List (List ℚ)) : Except PyErr ℚ :=
  npMax img.flatten

/-- Helper for `npArgmax`: index of the first maximum, scanning with the
running best index `bi` and best value `bv`; `i` is the index of the head
of the remaining list. -/
def argmaxFrom (i bi : ℕ) (bv : ℚ) : List ℚ → ℕ
  | [] => bi
  | y :: ys => if bv < y then argmaxFrom (i+1) i y ys else argmaxFrom (i+1) bi bv ys

/-- Model of `np.argmax`: first index of the maximum value;
`ValueError` on an empty array. -/
def npArgmax (l : List ℚ) : Except PyErr ℤ :=
  match l with
  | [] => .error .valueError
  | x :: xs => .ok ((argmaxFrom 1 0 x xs : ℕ) : ℤ)

/-- Python (and 1-D numpy) indexing `l[i]`: negative indices count from the
end, anything out of range raises `IndexError`. -/
def pyGetIdx {α : Type} (l : List α) (i : ℤ) : Except PyErr α :=
  if h : 0 ≤ i ∧ i.toNat < l.length then .ok (l.get ⟨i.toNat, h.2⟩)
  else if h2 : i < 0 ∧ ((i + l.length).toNat < l.length ∧ 0 ≤ i + l.length) then
    .ok (l.get ⟨(i + l.length).toNat, h2.2.1⟩)
  else .error .indexError

/-- Normalization of one Python slice bound against a list length. -/
def pySliceIdx (len : ℕ) (i : ℤ) : ℕ :=
  if i < 0 then (max 0 (i + len)).toNat else min i.toNat len

/-- Python slicing `l[a:b]` (never raises; clamps, negative bounds count
from the end). -/
def pySlice {α : Type} (l : List α) (a b : ℤ) : List α :=
  let s := pySliceIdx l.length a
  let e := pySliceIdx l.length b
  (l.drop s).take (e - s)

/-- Elementwise addition of two 1-D numpy arrays, with the length-1
broadcast case; mismatched lengths (neither 1) raise `ValueError`. -/
def npAdd (a b : List ℚ) : Except PyErr (List ℚ) :=
  if a.length = b.length then .ok (List.zipWith (· + ·) a b)
  else if a.length = 1 then .ok (b.map (fun y => a.headD 0 + y))
  else if b.length = 1 then .ok (a.map (fun x => x + b.headD 0))
  else .error .valueError

/-- Effectful `List.map` for `Except`, written by structural recursion so
that proofs can unfold it (Lean core `List.mapM` goes through a loop). -/
def exMapM {α β : Type} (f : α → Except PyErr β) : List α → Except PyErr (List β)
  | [] => .ok []
  | x :: xs =>
    match f x with
    | .error e => .error e
    | .ok y =>
      match exMapM f xs with
      | .error e => .error e
      | .ok ys => .ok (y :: ys)

/-- Rowwise addition of two 2-D numpy arrays, with the row-count-1
broadcast case. -/
def npAdd2 (a b : List (List ℚ)) : Except PyErr (List (List ℚ)) :=
  if a.length = b.length then exMapM (fun p => npAdd p.1 p.2) (a.zip b)
  else if a.length = 1 then exMapM (fun r => npAdd (a.headD []) r) b
  else if b.length = 1 then exMapM (fun r => npAdd r (b.headD [])) a
  else .error .valueError

/-- Boolean-mask indexing `l[mask]` of numpy; the mask must have the same
length as the array. -/
def npBoolIndex {α : Type} (l : List α) (mask : List Bool) : Except PyErr (List α) :=
  if l.length = mask.length then .ok (((l.zip mask).filter (fun p => p.2)).map Prod.fst)
  else .error .indexError

/-- Model of `np.mean` (value `sum / length`; only ever used on nonempty
concrete lists here). -/
def npMean (l : List ℚ) : ℚ := l.sum / l.length

/-- Determinant of a 3×3 matrix given row by row. -/
def det3 (a11 a12 a13 a21 a22 a23 a31 a32 a33 : ℚ) : ℚ :=
  a11*(a22*a33 - a23*a32) - a12*(a21*a33 - a23*a31) + a13*(a21*a32 - a22*a31)

/-- Model of `np.polyfit(x, y, 2)`: least-squares quadratic coefficients
`(a, b, c)` with `a x^2 + b x + c`, solved through the normal equations by
Cramer's rule.  numpy raises `TypeError` for an empty `x` or mismatched
lengths, which is what the bare `except:` clauses in the source catch.
When the normal matrix is singular (rank-deficient data) numpy's `lstsq`
returns a minimum-norm solution without raising; that case is not needed
by any theorem below and the rational division-by-zero convention yields
an unconstrained (but defined) triple there. -/
def polyfit2 (xs ys : List ℚ) : Except PyErr (ℚ × ℚ × ℚ) :=
  if xs.length = 0 then .error .typeError
  else if xs.length ≠ ys.length then .error .typeError
  else
    let n : ℚ := (xs.length : ℚ)
    let s1 := xs.sum
    let s2 := (xs.map (fun x => x^2)).sum
    let s3 := (xs.map (fun x => x^3)).sum
    let s4 := (xs.map (fun x => x^4)).sum
    let t0 := ys.sum
    let t1 := ((xs.zip ys).map (fun p => p.1 * p.2)).sum
    let t2 := ((xs.zip ys).map (fun p => p.1^2 * p.2)).sum
    let d := det3 s4 s3 s2 s3 s2 s1 s2 s1 n
    let a := det3 t2 s3 s2 t1 s2 s1 t0 s1 n / d
    let b := det3 s4 t2 s2 s3 t1 s1 s2 t0 n / d
    let c := det3 s4 s3 t2 s3 s2 t1 s2 s1 t0 / d
    .ok (a, b, c)

/-! Data model (source structures / `Metrics` namedtuples as documented by
the source's own docstrings and §3 of the spec). -/

/-- Per-bunch statistics produced by `xtu.ProcessXTCAVImage` (fields of
the `ImageStats` record that the source reads or rewrites). -/
structure ImageStats where
  xProfile : List ℚ
  yCOMslice : List ℚ
  yRMSslice : List ℚ
  xCOM : ℚ
  yCOM : ℚ
  deriving DecidableEq, Repr

/-- Region of interest bounds, as consumed by `setImageProfile`. -/
structure ROI where
  x0 : ℤ
  y0 : ℤ
  xN : ℤ
  yN : ℤ
  deriving DecidableEq, Repr

/-- Shot-to-shot beam parameters: only the validity flag steers the
control flow of `setImageProfile`. -/
structure ShotToShot where
  valid : Bool
  deriving DecidableEq, Repr

/-- Physical-unit axes computed by `xtu.CalculatePhyscialUnits`. -/
structure PhysicalUnits where
  xfs : List ℚ
  yMeV : List ℚ
  xfsPerPix : ℚ
  yMeVPerPix : ℚ
  valid : Bool
  deriving DecidableEq, Repr

/-- The `ImageProfile` aggregate stored in `self._image_profile`. -/
structure ImageProfile where
  image_stats : List ImageStats
  roi : ROI
  shot_to_shot : ShotToShot
  physical_units : PhysicalUnits
  deriving DecidableEq, Repr

/-- The `PulseCharacterization` namedtuple (fields per the `GetFullResults`
docstring in the source and §3 of the spec); only the fields the translated
methods read are carried as data, the full field-name list is
`pulseCharacterizationFields` below. -/
structure PulseCharacterization where
  t : List ℚ
  powerECOM : List (List ℚ)
  powerERMS : List (List ℚ)
  powerAgreement : List ℚ
  bunchdelay : List ℚ
  lasingenergyperbunchECOM : List ℚ
  lasingenergyperbunchERMS : List ℚ
  num_bunches : ℤ
  deriving DecidableEq, Repr

/-- Every field name of the `PulseCharacterization` namedtuple, verbatim
from the `GetFullResults` docstring (lines 320-337 of the source).  Note
that `image_stats` is not among them: `self._pulse_characterization.image_stats`
raises `AttributeError`. -/
def pulseCharacterizationFields : List String :=
  ["t", "powerECOM", "powerERMS", "powerAgreement", "bunchdelay",
   "bunchdelaychange", "xrayenergy", "lasingenergyperbunchECOM",
   "lasingenergyperbunchERMS", "bunchenergydiff", "bunchenergydiffchange",
   "lasingECurrent", "nolasingECurrent", "lasingECOM", "nolasingECOM",
   "lasingERMS", "nolasingERMS", "num_bunches"]

/-- Integer-valued attributes that the `ShotToShotCharacterization` class
ever assigns on `self` and that a bare integer attribute lookup inside
`setImageProfile` could hit.  Grepping the source, the class assigns
`num_bunches` (in `__init__`, `LoadDefaultProcessingParameters`,
`LoadLasingOffReferenceParameters`) but never `_num_bunches`, the name the
reversal loop on line 286 reads. -/
def instanceIntAttrs (num_bunches : ℤ) : List (String × ℤ) :=
  [("num_bunches", num_bunches), ("start_image", 0)]

/-- Python attribute lookup on the integer attribute table; a missing name
raises `AttributeError` at the use site. -/
def lookupIntAttr (attrs : List (String × ℤ)) (name : String) : Option ℤ :=
  attrs.lookup name

/-- Reversal of the first `n` per-bunch profiles, mirroring the loop body
of lines 286-289 (`xProfile`, `yCOMslice`, `yRMSslice` each reversed).
This code is unreachable in the source because the loop bound lookup
raises first; it is kept for fidelity to the written loop. -/
def reverseStatsList : ℕ → List ImageStats → List ImageStats
  | _, [] => []
  | 0, l => l
  | n+1, s :: rest =>
    { s with xProfile := s.xProfile.reverse,
             yCOMslice := s.yCOMslice.reverse,
             yRMSslice := s.yRMSslice.reverse } :: reverseStatsList n rest

/-- External-collaborator outputs consumed by `setImageProfile`, one field
per call boundary in source order: the raw image (`self._rawimage`), the
camera saturation value (`self._saturation_value`), the result of
`xtup.GetShotToShotParameters`, the `contains_data` flag of
`xtu.DenoiseImage`, the ROI after `xtu.FindROI`, the stats returned by
`xtu.ProcessXTCAVImage` and the units from `xtu.CalculatePhyscialUnits`. -/
structure EventInputs where
  rawimage : List (List ℚ)
  saturation_value : ℚ
  shot_to_shot : ShotToShot
  contains_data : Bool
  roi : ROI
  image_stats : List ImageStats
  physical_units : PhysicalUnits
  deriving DecidableEq, Repr

/-- Lines 255-293 of `setImageProfile`: everything after the saturation
check, in source order (shot-to-shot validity, dark subtraction — which
does not branch, denoise flag, minimum-ROI check, physical-unit validity,
then the negative-time-step mirroring, which reads the never-assigned
attribute `self._num_bunches` as its loop bound).  `minROI` stands for
`Constants.MIN_ROI_SIZE`, whose numeric value lives outside `src/`. -/
def setImageProfileRest (minROI self_num_bunches : ℤ) (inp : EventInputs) :
    Except PyErr (Option ImageProfile) :=
  if inp.shot_to_shot.valid = false then .ok none
  else if inp.contains_data = false then .ok none
  else if inp.roi.xN < minROI ∨ inp.roi.yN < minROI then .ok none
  else if inp.physical_units.valid = false then .ok none
  else if inp.physical_units.xfsPerPix < 0 then
    match lookupIntAttr (instanceIntAttrs self_num_bunches) "_num_bunches" with
    | none => .error .attributeError
    | some nb =>
      .ok (some { image_stats := reverseStatsList nb.toNat inp.image_stats,
                  roi := inp.roi,
                  shot_to_shot := inp.shot_to_shot,
                  physical_units :=
                    { inp.physical_units with xfs := inp.physical_units.xfs.reverse } })
  else
    .ok (some { image_stats := inp.image_stats, roi := inp.roi,
                shot_to_shot := inp.shot_to_shot,
                physical_units := inp.physical_units })

/-- Lines 247-293, `setImageProfile`: the saturation gate
(`np.max(self._rawimage) >= self._saturation_value`) followed by the rest
of the first reconstruction step.  Returns `.ok none` when the source
falls off the method without storing a profile. -/
def setImageProfile (minROI self_num_bunches : ℤ) (inp : EventInputs) :
    Except PyErr (Option ImageProfile) :=
  match npMax2 inp.rawimage with
  | .error e => .error e
  | .ok mx =>
    if inp.saturation_value ≤ mx then .ok none
    else setImageProfileRest minROI self_num_bunches inp

/-- Lines 205-244, `processEvent` (for an event whose camera image is
present): runs `setImageProfile`, then requires the lasing-off reference,
then stores the result of `xtu.ProcessLasingSingleShot` (an external
collaborator, abstracted as the `reconstruction` input).  The returned
triple is (boolean result, `self._image_profile`,
`self._pulse_characterization`). -/
def processEvent (minROI self_num_bunches : ℤ) (inp : EventInputs)
    (hasLasingOffReference : Bool) (reconstruction : Option PulseCharacterization) :
    Except PyErr (Bool × Option ImageProfile × Option PulseCharacterization) :=
  match setImageProfile minROI self_num_bunches inp with
  | .error e => .error e
  | .ok none => .ok (false, none, none)
  | .ok (some p) =>
    if hasLasingOffReference = false then .ok (false, some p, none)
    else
      match reconstruction with
      | none => .ok (false, some p, none)
      | some pc => .ok (true, some p, some pc)

/-! Derived metrics on a `PulseCharacterization`. -/

/-- The `method` dispatch shared verbatim by `PulseDelay` (lines 365-373)
and `PulseFWHM` (lines 405-413): the selected per-bunch power trace, where
`RMSCOM` is `(self._pulse_characterization.powerECOM[j] +
self._pulse_characterization.powerERMS[j])/2`; an unrecognized method
warns and makes the caller return `None` (modelled by the `none` payload
plus the warning). -/
def methodPowerW (pc : PulseCharacterization) (method : String) (j : ℤ) :
    Except PyErr (Option (List ℚ) × List Warn) :=
  if method = "RMS" then
    match pyGetIdx pc.powerERMS j with
    | .error e => .error e
    | .ok p => .ok (some p, [])
  else if method = "COM" then
    match pyGetIdx pc.powerECOM j with
    | .error e => .error e
    | .ok p => .ok (some p, [])
  else if method = "RMSCOM" then
    match pyGetIdx pc.powerECOM j, pyGetIdx pc.powerERMS j with
    | .ok a, .ok b =>
      match npAdd a b with
      | .error e => .error e
      | .ok s => .ok (some (s.map (fun x => x / 2)), [])
    | .error e, _ => .error e
    | _, .error e => .error e
  else .ok (none, [Warn.unsupportedMethod method])

/-- Loop body of `PulseDelay` (lines 363-380): shift the master time axis
by the bunch delay, select the power trace, quadratic-fit the 5 samples
around its argmax; the bare `except:` around the fit returns `None` for
the whole call. -/
def pulseDelayBody (pc : PulseCharacterization) (method : String) (j : ℤ) :
    Except PyErr (Option ℚ × List Warn) :=
  match pyGetIdx pc.bunchdelay j with
  | .error e => .error e
  | .ok d =>
    let t := pc.t.map (fun x => x + d)
    match methodPowerW pc method j with
    | .error e => .error e
    | .ok (none, ws) => .ok (none, ws)
    | .ok (some power, _) =>
      match npArgmax power with
      | .error e => .error e
      | .ok central =>
        match polyfit2 (pySlice t (central-2) (central+3))
                       (pySlice power (central-2) (central+3)) with
        | .error _ => .ok (none, [])
        | .ok (a, b, _) => .ok (some (-b / (2*a)), [])

/-- Loop body of `PulseFWHM` (lines 403-418): half-maximum threshold on the
selected power trace, boolean-mask the shifted time axis, and report
`last - first + dt` with `dt = t[1] - t[0]`. -/
def pulseFWHMBody (pc : PulseCharacterization) (method : String) (j : ℤ) :
    Except PyErr (Option ℚ × List Warn) :=
  match pyGetIdx pc.bunchdelay j with
  | .error e => .error e
  | .ok d =>
    let t := pc.t.map (fun x => x + d)
    match methodPowerW pc method j with
    | .error e => .error e
    | .ok (none, ws) => .ok (none, ws)
    | .ok (some power, _) =>
      match npMax power with
      | .error e => .error e
      | .ok mx =>
        let threshold := mx / 2
        match npBoolIndex t (power.map (fun x => decide (threshold ≤ x))) with
        | .error e => .error e
        | .ok abovethrestimes =>
          match pyGetIdx t 1, pyGetIdx t 0 with
          | .ok t1, .ok t0 =>
            let dt := t1 - t0
            match pyGetIdx abovethrestimes (-1), pyGetIdx abovethrestimes 0 with
            | .ok lastAb, .ok firstAb => .ok (some (lastAb - firstAb + dt), [])
            | .error e, _ => .error e
            | _, .error e => .error e
          | .error e, _ => .error e
          | _, .error e => .error e

/-- The per-bunch accumulation loop shared by `PulseDelay` and `PulseFWHM`
(`for j in range(num_bunches)` filling `peakpos` / `peakwidth`); a body
that yields the Python `return None` aborts the loop with `none`. -/
def metricLoop (body : ℕ → Except PyErr (Option ℚ × List Warn)) :
    List ℕ → Except PyErr (Option (List ℚ) × List Warn)
  | [] => .ok (some [], [])
  | j :: rest =>
    match body j with
    | .error e => .error e
    | .ok (none, ws) => .ok (none, ws)
    | .ok (some v, ws) =>
      match metricLoop body rest with
      | .error e => .error e
      | .ok (none, ws2) => .ok (none, ws ++ ws2)
      | .ok (some vs, ws2) => .ok (some (v :: vs), ws ++ ws2)

/-- Lines 344-382, `PulseDelay`: missing pulse characterization warns and
returns `None`; `num_bunches < 1` returns `np.zeros((num_bunches))`;
otherwise the quadratic-vertex loop. -/
def PulseDelay (pc? : Option PulseCharacterization) (method : String) :
    Except PyErr (Option (List ℚ) × List Warn) :=
  match pc? with
  | none => .ok (none, [Warn.noPulseChar])
  | some pc =>
    if pc.num_bunches < 1 then
      match npZeros pc.num_bunches with
      | .error e => .error e
      | .ok z => .ok (some z, [])
    else
      metricLoop (fun j => pulseDelayBody pc method (j : ℤ))
        (List.range pc.num_bunches.toNat)

/-- Lines 384-420, `PulseFWHM`: same frame as `PulseDelay` with the
half-maximum-span body. -/
def PulseFWHM (pc? : Option PulseCharacterization) (method : String) :
    Except PyErr (Option (List ℚ) × List Warn) :=
  match pc? with
  | none => .ok (none, [Warn.noPulseChar])
  | some pc =>
    if pc.num_bunches < 1 then
      match npZeros pc.num_bunches with
      | .error e => .error e
      | .ok z => .ok (some z, [])
    else
      metricLoop (fun j => pulseFWHMBody pc method (j : ℤ))
        (List.range pc.num_bunches.toNat)

/-- Lines 584-616, `XRayPower`: result is `(t, power)`.  The `t` matrix is
`np.zeros((self.num_bunches, len(mastert)))` (ValueError for a negative
instance bunch count) filled with the delay-shifted master axis; then the
same three-way method dispatch on whole 2-D arrays, where an unrecognized
method warns and returns `(t, None)`. -/
def XRayPower (self_num_bunches : ℤ) (pc? : Option PulseCharacterization)
    (method : String) :
    Except PyErr (Option (List (List ℚ)) × Option (List (List ℚ)) × List Warn) :=
  match pc? with
  | none => .ok (none, none, [Warn.noPulseChar])
  | some pc =>
    match npZeros self_num_bunches with
    | .error e => .error e
    | .ok _ =>
      match exMapM (fun (j : ℕ) =>
          match pyGetIdx pc.bunchdelay (j : ℤ) with
          | .error e => .error e
          | .ok d => .ok (pc.t.map (fun x => x + d)))
        (List.range self_num_bunches.toNat) with
      | .error e => .error e
      | .ok ts =>
        if method = "RMS" then .ok (some ts, some pc.powerERMS, [])
        else if method = "COM" then .ok (some ts, some pc.powerECOM, [])
        else if method = "RMSCOM" then
          match npAdd2 pc.powerECOM pc.powerERMS with
          | .error e => .error e
          | .ok s => .ok (some ts, some (s.map (List.map (fun x => x / 2))), [])
        else .ok (some ts, none, [Warn.unsupportedMethod method])

/-- Lines 619-642, `XRayEnergyPerBunch`: per-bunch integrated energies with
the same three-way dispatch. -/
def XRayEnergyPerBunch (pc? : Option PulseCharacterization) (method : String) :
    Except PyErr (Option (List ℚ) × List Warn) :=
  match pc? with
  | none => .ok (none, [Warn.noPulseChar])
  | some pc =>
    if method = "RMS" then .ok (some pc.lasingenergyperbunchERMS, [])
    else if method = "COM" then .ok (some pc.lasingenergyperbunchECOM, [])
    else if method = "RMSCOM" then
      match npAdd pc.lasingenergyperbunchECOM pc.lasingenergyperbunchERMS with
      | .error e => .error e
      | .ok s => .ok (some (s.map (fun x => x / 2)), [])
    else .ok (none, [Warn.unsupportedMethod method])

/-- Lines 672-684, `ReconstructionAgreement`: a missing pulse
characterization warns and returns the plain number `0`; otherwise the
mean of `powerAgreement`.  Both outcomes share the numeric return slot. -/
def ReconstructionAgreement (pc? : Option PulseCharacterization) : ℚ × List Warn :=
  match pc? with
  | none => (0, [Warn.noPulseChar])
  | some pc => (npMean pc.powerAgreement, [])

/-! Current-based delay methods (operate on the `ImageProfile`). -/

/-- The per-event state the current-based delay methods read:
`self._image_profile`, `self._pulse_characterization` and the resolved
instance attribute `self.num_bunches`. -/
structure S2SState where
  image_profile : Option ImageProfile
  pulse_characterization : Option PulseCharacterization
  num_bunches : ℤ
  deriving DecidableEq, Repr

/-- The attribute access `self._pulse_characterization.image_stats` on
line 451.  If the characterization is `None` this is an `AttributeError`
on `NoneType`; if it exists, `image_stats` is not a field of the
`PulseCharacterization` namedtuple (see `pulseCharacterizationFields`), so
it is an `AttributeError` as well.  The result type `Empty` records that
no value can ever be produced. -/
def pulseCharGetImageStats (pc? : Option PulseCharacterization) :
    Except PyErr Empty :=
  match pc? with
  | none => .error .attributeError
  | some _ =>
    if h : "image_stats" ∈ pulseCharacterizationFields then absurd h (by decide)
    else .error .attributeError

/-- Loop body of `InterBunchPulseDelayBasedOnCurrent` (lines 440-454):
argmax of the bunch's current profile, then a `try:` block whose
`np.polyfit` argument evaluation dereferences
`self._pulse_characterization.image_stats`; the resulting
`AttributeError` is swallowed by the bare `except:`, which returns `None`
for the whole call.  (The time-axis slice `t[central-2:central+3]` is
evaluated first but cannot raise.) -/
def currentDelayBody (p : ImageProfile) (pc? : Option PulseCharacterization)
    (j : ℤ) : Except PyErr (Option ℚ) :=
  match pyGetIdx p.image_stats j with
  | .error e => .error e
  | .ok s =>
    match npArgmax s.xProfile with
    | .error e => .error e
    | .ok _central =>
      match pulseCharGetImageStats pc? with
      | .error _ => .ok none
      | .ok v => v.elim

/-- The `for j in range(0, self.num_bunches)` loop of
`InterBunchPulseDelayBasedOnCurrent`. -/
def currentDelayLoop (p : ImageProfile) (pc? : Option PulseCharacterization) :
    List ℕ → Except PyErr (Option (List ℚ))
  | [] => .ok (some [])
  | j :: rest =>
    match currentDelayBody p pc? (j : ℤ) with
    | .error e => .error e
    | .ok none => .ok none
    | .ok (some v) =>
      match currentDelayLoop p pc? rest with
      | .error e => .error e
      | .ok none => .ok none
      | .ok (some vs) => .ok (some (v :: vs))

/-- Lines 422-456, `InterBunchPulseDelayBasedOnCurrent`: requires only an
image profile by its guard, allocates `peakpos = np.zeros((self.num_bunches))`
and runs the per-bunch loop. -/
def InterBunchPulseDelayBasedOnCurrent (st : S2SState) :
    Except PyErr (Option (List ℚ) × List Warn) :=
  match st.image_profile with
  | none => .ok (none, [Warn.noImageProfile])
  | some p =>
    match npZeros st.num_bunches with
    | .error e => .error e
    | .ok _ =>
      match currentDelayLoop p st.pulse_characterization
          (List.range st.num_bunches.toNat) with
      | .error e => .error e
      | .ok none => .ok (none, [])
      | .ok (some vs) => .ok (some vs, [])

/-- Lines 531-532: threshold the profile at `thresholdfactor` times its
maximum and clamp negatives to zero, producing the input of the Fourier
low-pass filter. -/
def threshProfile (profile : List ℚ) (mx thresholdfactor : ℚ) : List ℚ :=
  (profile.map (fun x => x - mx * thresholdfactor)).map
    (fun x => if x < 0 then 0 else x)

/-- Line 533 followed by line 543: run the low-pass filter
`p ↦ np.fft.ifft(np.fft.fft(p) * ffilter)` — abstracted as `F`, because the
complex-valued FFT is not representable in the rational embedding — and
take the argmax of the filtered profile.  The filtered array has no other
use in the source. -/
def fourierCenter (F : List ℚ → Except PyErr (List ℚ)) (pf : List ℚ) :
    Except PyErr ℤ :=
  match F pf with
  | .error e => .error e
  | .ok profilef => npArgmax profilef

/-- Loop body of `InterBunchPulseDelayBasedOnCurrentFourierFiltered`
(lines 528-548): the filtered profile chooses the window center, the
quadratic fit runs on slices of the *original* `xProfile`. -/
def fourierBody (F : List ℚ → Except PyErr (List ℚ)) (t : List ℚ)
    (stats : List ImageStats) (thresholdfactor : ℚ) (j : ℤ) :
    Except PyErr (Option ℚ) :=
  match pyGetIdx stats j with
  | .error e => .error e
  | .ok s =>
    match npMax s.xProfile with
    | .error e => .error e
    | .ok mx =>
      match fourierCenter F (threshProfile s.xProfile mx thresholdfactor) with
      | .error e => .error e
      | .ok central =>
        match polyfit2 (pySlice t (central-2) (central+3))
                       (pySlice s.xProfile (central-2) (central+3)) with
        | .error _ => .ok none
        | .ok (a, b, _) => .ok (some (-b / (2*a)))

/-- The per-bunch loop of the Fourier-filtered delay method. -/
def fourierLoop (F : List ℚ → Except PyErr (List ℚ)) (t : List ℚ)
    (stats : List ImageStats) (thresholdfactor : ℚ) :
    List ℕ → Except PyErr (Option (List ℚ))
  | [] => .ok (some [])
  | j :: rest =>
    match fourierBody F t stats thresholdfactor (j : ℤ) with
    | .error e => .error e
    | .ok none => .ok none
    | .ok (some v) =>
      match fourierLoop F t stats thresholdfactor rest with
      | .error e => .error e
      | .ok none => .ok none
      | .ok (some vs) => .ok (some (v :: vs))

/-- Lines 500-550, `InterBunchPulseDelayBasedOnCurrentFourierFiltered`.
`targetwidthfs` only shapes the frequency kernel `ffilter`, which is part
of the abstracted filter `F`; `dt*N == 0` returns `None` (line 520). -/
def InterBunchPulseDelayBasedOnCurrentFourierFiltered
    (F : List ℚ → Except PyErr (List ℚ)) (st : S2SState)
    (_targetwidthfs thresholdfactor : ℚ) :
    Except PyErr (Option (List ℚ) × List Warn) :=
  match st.image_profile with
  | none => .ok (none, [Warn.noImageProfile])
  | some p =>
    let t := p.physical_units.xfs
    let dt := |p.physical_units.xfsPerPix|
    if dt * (t.length : ℚ) = 0 then .ok (none, [])
    else
      match npZeros st.num_bunches with
      | .error e => .error e
      | .ok _ =>
        match fourierLoop F t p.image_stats thresholdfactor
            (List.range st.num_bunches.toNat) with
        | .error e => .error e
        | .ok none => .ok (none, [])
        | .ok (some vs) => .ok (some vs, [])

/-! Parameter resolver (`LoadLasingOffReferenceParameters`). -/

/-- Caller-held processing parameters before the lasing-off reference is
applied; `none` is Python's `None` default. -/
structure UserParams where
  num_bunches : Option ℤ
  medianfilter : Option ℚ
  snrfilter : Option ℚ
  roiwaistthres : Option ℚ
  roiexpand : Option ℚ
  darkreferencepath : Option String
  islandsplitmethod : Option String
  islandsplitpar1 : Option ℚ
  islandsplitpar2 : Option ℚ
  deriving DecidableEq, Repr

/-- Parameters recorded inside the loaded lasing-off reference. -/
structure RefParams where
  num_bunches : ℤ
  medianfilter : ℚ
  snrfilter : ℚ
  roiwaistthres : ℚ
  roiexpand : ℚ
  darkreferencepath : String
  islandsplitmethod : String
  islandsplitpar1 : ℚ
  islandsplitpar2 : ℚ
  deriving DecidableEq, Repr

/-- Python truthiness of an optional number (`None` and `0` are falsy). -/
def truthyQ : Option ℚ → Bool
  | none => false
  | some q => decide (q ≠ 0)

/-- Python truthiness of an optional integer. -/
def truthyZ : Option ℤ → Bool
  | none => false
  | some n => decide (n ≠ 0)

/-- Python truthiness of an optional string (`None` and `""` are falsy). -/
def truthyS : Option String → Bool
  | none => false
  | some s => decide (s ≠ "")

/-- Lines 180-202, `LoadLasingOffReferenceParameters`: warn when a truthy
caller bunch count differs from the reference's, then overwrite it
unconditionally; every other parameter keeps a truthy caller value and
falls back to the reference value otherwise (`if not self.x: self.x = ref.x`). -/
def LoadLasingOffReferenceParameters (u : UserParams) (r : RefParams) :
    UserParams × List Warn :=
  let ws :=
    if truthyZ u.num_bunches ∧ u.num_bunches ≠ some r.num_bunches then
      [Warn.numBunchesMismatch]
    else []
  ({ num_bunches := some r.num_bunches
     medianfilter := if truthyQ u.medianfilter then u.medianfilter else some r.medianfilter
     snrfilter := if truthyQ u.snrfilter then u.snrfilter else some r.snrfilter
     roiwaistthres := if truthyQ u.roiwaistthres then u.roiwaistthres else some r.roiwaistthres
     roiexpand := if truthyQ u.roiexpand then u.roiexpand else some r.roiexpand
     darkreferencepath := if truthyS u.darkreferencepath then u.darkreferencepath else some r.darkreferencepath
     islandsplitmethod := if truthyS u.islandsplitmethod then u.islandsplitmethod else some r.islandsplitmethod
     islandsplitpar1 := if truthyQ u.islandsplitpar1 then u.islandsplitpar1 else some r.islandsplitpar1
     islandsplitpar2 := if truthyQ u.islandsplitpar2 then u.islandsplitpar2 else some r.islandsplitpar2 }, ws)

/-! Claim-side (spec-worded) helper definitions. -/

/-- The times of the samples whose power is at or above half the maximum
of the trace, in sample order (spec wording of the FWHM rule). -/
def halfMaxTimes (t power : List ℚ) : List ℚ :=
  ((t.zip power).filter (fun p => decide (listMax power / 2 ≤ p.2))).map Prod.fst

/-- The claimed FWHM value: time of the last qualifying sample minus the
time of the first, plus one time step. -/
def halfMaxSpan (t power : List ℚ) (dt : ℚ) : ℚ :=
  (halfMaxTimes t power).getLastD 0 - (halfMaxTimes t power).headD 0 + dt

/-! Concrete instances used by witnesses, counterexamples and code-bug
evaluations. -/

/-- Event inputs that pass every check before the axis mirroring and have
a negative time-per-pixel step. -/
def inpNegStep : EventInputs :=
  { rawimage := [[1, 2], [0, 1]]
    saturation_value := 1000
    shot_to_shot := { valid := true }
    contains_data := true
    roi := { x0 := 0, y0 := 0, xN := 50, yN := 40 }
    image_stats := [{ xProfile := [1, 3, 2], yCOMslice := [0, 1, 0],
                      yRMSslice := [1, 1, 1], xCOM := 1, yCOM := 0 }]
    physical_units := { xfs := [2, 1, 0], yMeV := [0, 1], xfsPerPix := -1,
                        yMeVPerPix := 1, valid := true } }

/-- A one-bunch image profile with a nonempty current profile. -/
def profOneBunch : ImageProfile :=
  { image_stats := [{ xProfile := [1, 4, 2], yCOMslice := [0], yRMSslice := [0],
                      xCOM := 1, yCOM := 0 }]
    roi := { x0 := 0, y0 := 0, xN := 10, yN := 10 }
    shot_to_shot := { valid := true }
    physical_units := { xfs := [0, 1, 2], yMeV := [0], xfsPerPix := 1,
                        yMeVPerPix := 1, valid := true } }

/-- State for the current-based delay with one bunch and, as in the
no-reference use case the method documents, no pulse characterization. -/
def stNoReference : S2SState :=
  { image_profile := some profOneBunch, pulse_characterization := none,
    num_bunches := 1 }

/-- A pulse characterization whose bunch count is zero. -/
def pcZeroBunches : PulseCharacterization :=
  { t := [0, 1], powerECOM := [], powerERMS := [], powerAgreement := [1],
    bunchdelay := [], lasingenergyperbunchECOM := [],
    lasingenergyperbunchERMS := [], num_bunches := 0 }

/-- A pulse characterization whose recorded bunch count is negative. -/
def pcNegBunches : PulseCharacterization :=
  { t := [0, 1], powerECOM := [[1, 2]], powerERMS := [[1, 2]],
    powerAgreement := [1], bunchdelay := [0],
    lasingenergyperbunchECOM := [1], lasingenergyperbunchERMS := [1],
    num_bunches := -1 }

/-- A pulse characterization with a genuinely zero mean agreement
(`powerAgreement = [1, -1]`). -/
def pcAgreeZero : PulseCharacterization :=
  { t := [0, 1], powerECOM := [[1, 1]], powerERMS := [[1, 1]],
    powerAgreement := [1, -1], bunchdelay := [0],
    lasingenergyperbunchECOM := [1], lasingenergyperbunchERMS := [1],
    num_bunches := 1 }

/-- A small, fully populated one-bunch pulse characterization. -/
def pcOneBunch : PulseCharacterization :=
  { t := [0, 1, 2, 3, 4], powerECOM := [[0, 2, 4, 2, 0]],
    powerERMS := [[0, 4, 4, 4, 0]], powerAgreement := [1],
    bunchdelay := [0], lasingenergyperbunchECOM := [2],
    lasingenergyperbunchERMS := [4], num_bunches := 1 }

/-- Caller parameters that supply an explicit, falsy `medianfilter = 0`. -/
def uFalsyMedian : UserParams :=
  { num_bunches := none, medianfilter := some 0, snrfilter := none,
    roiwaistthres := none, roiexpand := none, darkreferencepath := none,
    islandsplitmethod := none, islandsplitpar1 := none, islandsplitpar2 := none }

/-- Reference parameters for the parameter-resolver counterexample. -/
def rRef : RefParams :=
  { num_bunches := 1, medianfilter := 3, snrfilter := 10,
    roiwaistthres := 1/5, roiexpand := 5/2, darkreferencepath := "dark",
    islandsplitmethod := "scipylabel", islandsplitpar1 := 3, islandsplitpar2 := 5 }

/-- Event inputs whose raw image is saturated (max 20 ≥ threshold 10). -/
def inpSaturated : EventInputs :=
  { rawimage := [[20, 3], [0, 1]]
    saturation_value := 10
    shot_to_shot := { valid := true }
    contains_data := true
    roi := { x0 := 0, y0 := 0, xN := 50, yN := 40 }
    image_stats := [{ xProfile := [1], yCOMslice := [0], yRMSslice := [0],
                      xCOM := 0, yCOM := 0 }]
    physical_units := { xfs := [0], yMeV := [0], xfsPerPix := 1,
                        yMeVPerPix := 1, valid := true } }

/-- Per-bunch stats whose current profile is an exact parabola
`4x - x^2` sampled on `0..4` (vertex 2). -/
def statsParabola : ImageStats :=
  { xProfile := [0, 3, 4, 3, 0], yCOMslice := [0], yRMSslice := [0],
    xCOM := 2, yCOM := 0 }

/-- A one-bunch image profile around `statsParabola`. -/
def profParabola : ImageProfile :=
  { image_stats := [statsParabola]
    roi := { x0 := 0, y0 := 0, xN := 10, yN := 10 }
    shot_to_shot := { valid := true }
    physical_units := { xfs := [0, 1, 2, 3, 4], yMeV := [0], xfsPerPix := 1,
                        yMeVPerPix := 1, valid := true } }

/-- State wrapping `profParabola` for the Fourier-filtered delay. -/
def stParabola : S2SState :=
  { image_profile := some profParabola, pulse_characterization := none,
    num_bunches := 1 }

/-! General helper lemmas. -/

theorem exMapM_ok {α β : Type} (f : α → Except PyErr β) (g : α → β) :
    ∀ (l : List α), (∀ x ∈ l, f x = .ok (g x)) → exMapM f l = .ok (l.map g) := by
  intro l
  induction l with
  | nil => intro _; rfl
  | cons x xs ih =>
    intro h
    have hx := h x (by simp)
    have hxs := ih (fun y hy => h y (by simp [hy]))
    simp [exMapM, hx, hxs]

theorem metricLoop_ok (body : ℕ → Except PyErr (Option ℚ × List Warn)) (g : ℕ → ℚ) :
    ∀ (l : List ℕ), (∀ j ∈ l, body j = .ok (some (g j), [])) →
      metricLoop body l = .ok (some (l.map g), []) := by
  intro l
  induction l with
  | nil => intro _; rfl
  | cons j rest ih =>
    intro h
    have hj := h j (by simp)
    have hrest := ih (fun y hy => h y (by simp [hy]))
    simp [metricLoop, hj, hrest]

theorem pyGetIdx_nat {α : Type} (l : List α) (i : ℕ) (d : α) (h : i < l.length) :
    pyGetIdx l (i : ℤ) = .ok (l.getD i d) := by
  have h0 : (0:ℤ) ≤ (i:ℤ) := Int.ofNat_nonneg i
  have ht : (i:ℤ).toNat = i := Int.toNat_ofNat i
  have h1 : (i:ℤ).toNat < l.length := by omega
  rw [pyGetIdx, dif_pos ⟨h0, h1⟩]
  congr 1
  rw [List.getD_eq_getElem l d h]
  simp [List.get_eq_getElem, ht]

theorem pyGetIdx_neg_one {α : Type} (l : List α) (d : α) (h : l ≠ []) :
    pyGetIdx l (-1) = .ok (l.getLastD d) := by
  have hlen : 0 < l.length := List.length_pos.2 h
  have h0 : ¬ ((0:ℤ) ≤ -1 ∧ (-1 : ℤ).toNat < l.length) := by omega
  have ht : ((-1 : ℤ) + l.length).toNat = l.length - 1 := by omega
  have h1 : (-1 : ℤ) < 0 ∧ (((-1 : ℤ) + l.length).toNat < l.length ∧ (0:ℤ) ≤ -1 + l.length) := by
    omega
  rw [pyGetIdx, dif_neg h0, dif_pos h1]
  congr 1
  rw [List.getLastD_eq_getLast? , List.getLast?_eq_getLast l h,
    List.getLast_eq_getElem l h]
  simp [List.get_eq_getElem, ht]

theorem map_zip_eq_zipWith {α β γ : Type} (f : α → β → γ) :
    ∀ (a : List α) (b : List β),
      (a.zip b).map (fun p => f p.1 p.2) = List.zipWith f a b := by
  intro a
  induction a with
  | nil => intro b; rfl
  | cons x xs ih =>
    intro b
    cases b with
    | nil => rfl
    | cons y ys => simp [ih]

theorem filter_zip_map_snd {α : Type} (f : ℚ → Bool) :
    ∀ (t : List α) (P : List ℚ),
      ((t.zip (P.map f)).filter (fun p => p.2)).map Prod.fst
        = ((t.zip P).filter (fun p => f p.2)).map Prod.fst := by
  intro t
  induction t with
  | nil => intro P; rfl
  | cons x xs ih =>
    intro P
    cases P with
    | nil => rfl
    | cons y ys =>
      simp only [List.map_cons, List.zip_cons_cons, List.filter_cons]
      by_cases hy : f y = true
      · simp only [hy, if_true, List.map_cons, ih]
      · simp only [Bool.not_eq_true] at hy
        simp only [hy, Bool.false_eq_true, if_false, ih]

theorem zip_filter_ne_nil {α : Type} (f : ℚ → Bool) :
    ∀ (t : List α) (P : List ℚ), t.length = P.length →
      (∃ y ∈ P, f y = true) → (t.zip P).filter (fun p => f p.2) ≠ [] := by
  intro t
  induction t with
  | nil =>
    intro P hlen hy
    cases P with
    | nil => simp at hy
    | cons y ys => simp at hlen
  | cons x xs ih =>
    intro P hlen hy
    cases P with
    | nil => simp at hy
    | cons y ys =>
      rw [List.zip_cons_cons, List.filter_cons]
      by_cases hfy : f y = true
      · simp only [hfy, if_true]
        simp
      · simp only [Bool.not_eq_true] at hfy
        obtain ⟨z, hzP, hfz⟩ := hy
        simp at hzP
        rcases hzP with rfl | hzys
        · rw [hfy] at hfz; cases hfz
        · have hne := ih ys (by simpa using hlen) ⟨z, hzys, hfz⟩
          simpa only [hfy, Bool.false_eq_true, if_false] using hne

theorem le_foldl_max (xs : List ℚ) : ∀ (a b : ℚ), a ≤ b → a ≤ xs.foldl max b := by
  induction xs with
  | nil => intro a b h; simpa using h
  | cons x xs ih =>
    intro a b h
    exact ih a (max b x) (le_trans h (le_max_left b x))

theorem mem_le_foldl_max (xs : List ℚ) : ∀ (a x : ℚ), x ∈ xs → x ≤ xs.foldl max a := by
  induction xs with
  | nil => intro a x h; simp at h
  | cons z zs ih =>
    intro a x h
    simp at h
    rcases h with rfl | h
    · exact le_foldl_max zs x (max a x) (le_max_right a x)
    · exact ih (max a z) x h

theorem le_listMax (l : List ℚ) (x : ℚ) (h : x ∈ l) : x ≤ listMax l := by
  cases l with
  | nil => simp at h
  | cons z zs =>
    simp at h
    rcases h with rfl | h
    · exact le_foldl_max zs x x le_rfl
    · exact mem_le_foldl_max zs z x h

theorem foldl_max_choice (xs : List ℚ) : ∀ (a : ℚ), xs.foldl max a = a ∨ xs.foldl max a ∈ xs := by
  induction xs with
  | nil => intro a; left; rfl
  | cons x xs ih =>
    intro a
    rcases ih (max a x) with h | h
    · rcases max_choice a x with hm | hm
      · left; rw [List.foldl_cons, h, hm]
      · right; rw [List.foldl_cons, h, hm]; simp
    · right; simp [h]

theorem listMax_mem (l : List ℚ) (h : l ≠ []) : listMax l ∈ l := by
  cases l with
  | nil => exact absurd rfl h
  | cons x xs =>
    rcases foldl_max_choice xs x with hc | hc
    · rw [listMax, hc]; simp
    · rw [listMax]; simp [hc]

theorem npAdd_eq (a b : List ℚ) (h : a.length = b.length) :
    npAdd a b = .ok (List.zipWith (· + ·) a b) := by
  simp [npAdd, h]

theorem npAdd2_eq (a b : List (List ℚ)) (h : List.Forall₂ (fun r s : List ℚ => r.length = s.length) a b) :
    npAdd2 a b = .ok (List.zipWith (List.zipWith (· + ·)) a b) := by
  have hlen := List.Forall₂.length_eq h
  rw [npAdd2, if_pos hlen]
  have hmem : ∀ p ∈ a.zip b, npAdd p.1 p.2 = .ok (List.zipWith (· + ·) p.1 p.2) := by
    intro p hp
    exact npAdd_eq p.1 p.2 (List.forall₂_zip h hp)
  have hrw := exMapM_ok (fun p => npAdd p.1 p.2)
    (fun p => List.zipWith (· + ·) p.1 p.2) (a.zip b) hmem
  rw [hrw, map_zip_eq_zipWith]

theorem map_div2_zipWith_add (a b : List ℚ) :
    (List.zipWith (· + ·) a b).map (fun x => x / 2)
      = List.zipWith (fun x y => (x + y) / 2) a b := by
  induction a generalizing b with
  | nil => rfl
  | cons x xs ih =>
    cases b with
    | nil => rfl
    | cons y ys => simp [ih]

/-! Claim theorems. -/

theorem pyGetIdx_zero {α : Type} (x : α) (xs : List α) : pyGetIdx (x :: xs) 0 = .ok x := by
  have h := pyGetIdx_nat (x :: xs) 0 x (by simp)
  simpa using h

theorem methodPowerW_unsupported (pc : PulseCharacterization) (method : String) (j : ℤ)
    (h1 : method ≠ "RMS") (h2 : method ≠ "COM") (h3 : method ≠ "RMSCOM") :
    methodPowerW pc method j = .ok (none, [Warn.unsupportedMethod method]) := by
  rw [methodPowerW, if_neg h1, if_neg h2, if_neg h3]

theorem map_map_div2_zipWith2 (a b : List (List ℚ)) :
    (List.zipWith (List.zipWith (· + ·)) a b).map (List.map (fun x => x / 2))
      = List.zipWith (List.zipWith (fun x y => (x + y) / 2)) a b := by
  induction a generalizing b with
  | nil => rfl
  | cons x xs ih =>
    cases b with
    | nil => rfl
    | cons y ys => simp [ih, map_div2_zipWith_add]

/-- Claim C1: the spec says that for a negative time-per-pixel the time
axis and every per-bunch profile are mirrored and an `ImageProfile` is
still produced.  The code instead reads the never-assigned attribute
`self._num_bunches` as the mirroring loop bound, so any event that
reaches the mirroring branch dies with `AttributeError` and no profile
(and hence no pulse characterization) is ever produced: evaluated here on
`inpNegStep`, which passes saturation, validity, denoise, ROI-size and
unit-validity checks and has `xfsPerPix = -1`. -/
theorem C1_negative_step_reversal_raises :
    setImageProfile 2 1 inpNegStep = .error .attributeError
    ∧ processEvent 2 1 inpNegStep true none = .error .attributeError
    ∧ inpNegStep.physical_units.xfsPerPix < 0 := by
  exact ⟨rfl, rfl, by norm_num [inpNegStep]⟩

/-- Claim C2: the spec says the current-based delay needs no lasing-off
reference and returns per-bunch quadratic-vertex delays.  The fit on
line 451 dereferences `self._pulse_characterization.image_stats` — the
characterization is `None` in the documented no-reference use case, and
the `PulseCharacterization` namedtuple has no `image_stats` field anyway —
so the bare `except:` turns every iteration into `return None`: with one
bunch and a well-formed image profile the method returns `None` both
without and with a pulse characterization. -/
theorem C2_current_delay_always_none :
    InterBunchPulseDelayBasedOnCurrent stNoReference = .ok (none, [])
    ∧ InterBunchPulseDelayBasedOnCurrent
        { stNoReference with pulse_characterization := some pcOneBunch }
      = .ok (none, []) := by
  exact ⟨rfl, rfl⟩

/-- Claim C9: with no pulse characterization `ReconstructionAgreement`
returns the numeric value `0`, the same value a genuine characterization
with mean agreement zero (here `powerAgreement = [1, -1]`) produces, so
the failure sentinel is indistinguishable from a real zero score. -/
theorem C9_agreement_failure_indistinguishable_from_zero :
    (ReconstructionAgreement none).1 = 0
    ∧ (ReconstructionAgreement (some pcAgreeZero)).1 = 0
    ∧ (ReconstructionAgreement none).1 = (ReconstructionAgreement (some pcAgreeZero)).1 := by
  refine ⟨rfl, by with_unfolding_all rfl, by with_unfolding_all rfl⟩

/-- Claim C10, counterexample: the claim quantifies over every
characterization with `num_bunches < 1`, but for the concrete
`num_bunches = -1` the guard's `np.zeros((num_bunches))` raises
`ValueError` (negative dimensions), so neither method returns the claimed
zero-length array. -/
theorem C10_negative_bunches_raise_valueerror :
    pcNegBunches.num_bunches < 1
    ∧ PulseDelay (some pcNegBunches) "RMSCOM" = .error .valueError
    ∧ PulseFWHM (some pcNegBunches) "RMSCOM" = .error .valueError := by
  exact ⟨by norm_num [pcNegBunches], rfl, rfl⟩

/-- Claim C10 (amended): for a characterization with `num_bunches = 0`
(the only value below 1 for which `np.zeros` succeeds), `PulseDelay` and
`PulseFWHM` both return an explicit empty array — not `None`, no warning,
no failure — for every method argument. -/
theorem C10_zero_bunches_empty_result (pc : PulseCharacterization) (method : String)
    (h : pc.num_bunches = 0) :
    PulseDelay (some pc) method = .ok (some [], [])
    ∧ PulseFWHM (some pc) method = .ok (some [], []) := by
  constructor
  · simp [PulseDelay, h, npZeros]
  · simp [PulseFWHM, h, npZeros]

/-- Witness for `C10_zero_bunches_empty_result` at `pcZeroBunches` and an
arbitrary unsupported method string. -/
theorem C10_zero_bunches_empty_result_witness :
    pcZeroBunches.num_bunches = 0
    ∧ (PulseDelay (some pcZeroBunches) "FOO" = .ok (some [], [])
       ∧ PulseFWHM (some pcZeroBunches) "FOO" = .ok (some [], [])) :=
  ⟨rfl, C10_zero_bunches_empty_result pcZeroBunches "FOO" rfl⟩

/-- Claim C6, counterexample: for the unrecognized method `"FOO"` and a
characterization with zero bunches, `PulseDelay` returns an (empty)
array with *no* warning — the bunch-count guard runs before the method
dispatch — contradicting the claim that every unsupported-method call
yields the documented failure value together with a warning. -/
theorem C6_zero_bunches_unsupported_method_silent :
    PulseDelay (some pcZeroBunches) "FOO" = .ok (some [], [])
    ∧ PulseDelay (some pcZeroBunches) "FOO"
      ≠ .ok (none, [Warn.unsupportedMethod "FOO"]) := by
  refine ⟨rfl, ?_⟩
  intro h
  rw [show PulseDelay (some pcZeroBunches) "FOO"
      = .ok ((some [] : Option (List ℚ)), ([] : List Warn)) from rfl] at h
  simp at h

/-- Claim C4, counterexample: the caller explicitly supplies
`medianfilter = 0`, a set-but-falsy value; `if not self.medianfilter`
treats it like `None`, so the reference value 3 overwrites it instead of
being kept as the claim requires. -/
theorem C4_falsy_explicit_param_overwritten :
    uFalsyMedian.medianfilter = some 0
    ∧ (LoadLasingOffReferenceParameters uFalsyMedian rRef).1.medianfilter = some 3
    ∧ (LoadLasingOffReferenceParameters uFalsyMedian rRef).1.medianfilter
      ≠ uFalsyMedian.medianfilter := by
  refine ⟨rfl, by with_unfolding_all rfl, ?_⟩
  intro h
  rw [show (LoadLasingOffReferenceParameters uFalsyMedian rRef).1.medianfilter
      = some (3:ℚ) by with_unfolding_all rfl,
    show uFalsyMedian.medianfilter = some (0:ℚ) from rfl] at h
  simp at h

/-- Claim C4 (amended): `LoadLasingOffReferenceParameters` always takes the
reference's bunch count, warns exactly when the caller's bunch count is
truthy and different, and resolves each of the eight other tunables to the
caller's value when that value is truthy (Python truthiness: non-`None`
and nonzero / nonempty) and to the reference's value otherwise. -/
theorem C4_parameter_precedence (u : UserParams) (r : RefParams) :
    (LoadLasingOffReferenceParameters u r).1.num_bunches = some r.num_bunches
    ∧ ((LoadLasingOffReferenceParameters u r).2 ≠ [] ↔
        ∃ n, u.num_bunches = some n ∧ n ≠ 0 ∧ n ≠ r.num_bunches)
    ∧ (LoadLasingOffReferenceParameters u r).1.medianfilter
        = (if truthyQ u.medianfilter then u.medianfilter else some r.medianfilter)
    ∧ (LoadLasingOffReferenceParameters u r).1.snrfilter
        = (if truthyQ u.snrfilter then u.snrfilter else some r.snrfilter)
    ∧ (LoadLasingOffReferenceParameters u r).1.roiwaistthres
        = (if truthyQ u.roiwaistthres then u.roiwaistthres else some r.roiwaistthres)
    ∧ (LoadLasingOffReferenceParameters u r).1.roiexpand
        = (if truthyQ u.roiexpand then u.roiexpand else some r.roiexpand)
    ∧ (LoadLasingOffReferenceParameters u r).1.darkreferencepath
        = (if truthyS u.darkreferencepath then u.darkreferencepath else some r.darkreferencepath)
    ∧ (LoadLasingOffReferenceParameters u r).1.islandsplitmethod
        = (if truthyS u.islandsplitmethod then u.islandsplitmethod else some r.islandsplitmethod)
    ∧ (LoadLasingOffReferenceParameters u r).1.islandsplitpar1
        = (if truthyQ u.islandsplitpar1 then u.islandsplitpar1 else some r.islandsplitpar1)
    ∧ (LoadLasingOffReferenceParameters u r).1.islandsplitpar2
        = (if truthyQ u.islandsplitpar2 then u.islandsplitpar2 else some r.islandsplitpar2) := by
  refine ⟨rfl, ?_, rfl, rfl, rfl, rfl, rfl, rfl, rfl, rfl⟩
  have hsnd : (LoadLasingOffReferenceParameters u r).2
      = (if truthyZ u.num_bunches ∧ u.num_bunches ≠ some r.num_bunches then
          [Warn.numBunchesMismatch] else []) := rfl
  rw [hsnd]
  by_cases hc : truthyZ u.num_bunches ∧ u.num_bunches ≠ some r.num_bunches
  · rw [if_pos hc]
    obtain ⟨ht, hne⟩ := hc
    constructor
    · intro _
      cases hun : u.num_bunches with
      | none => rw [hun] at ht; cases ht
      | some n =>
        refine ⟨n, rfl, ?_, ?_⟩
        · rw [hun] at ht
          simpa [truthyZ] using ht
        · intro hnr
          exact hne (by rw [hun, hnr])
    · intro _
      simp
  · rw [if_neg hc]
    constructor
    · intro hne; exact absurd rfl hne
    · rintro ⟨n, hun, hn0, hnr⟩
      exfalso
      apply hc
      refine ⟨by rw [hun]; simpa [truthyZ] using hn0, ?_⟩
      rw [hun]
      intro hsome
      exact hnr (by injection hsome)

/-- Claim C3: with method `RMSCOM`, the power value used by `PulseDelay`
and `PulseFWHM` (their shared dispatch `methodPowerW`), the power matrix
returned by `XRayPower` and the energies returned by `XRayEnergyPerBunch`
are exactly the elementwise arithmetic means of the values the same calls
use with methods `COM` (`powerECOM` / `lasingenergyperbunchECOM`) and
`RMS` (`powerERMS` / `lasingenergyperbunchERMS`). -/
theorem C3_rmscom_is_mean_of_com_and_rms (pc : PulseCharacterization) (snb j : ℤ)
    (a b : List ℚ) (ts : List (List ℚ))
    (hCOM : methodPowerW pc "COM" j = .ok (some a, []))
    (hRMS : methodPowerW pc "RMS" j = .ok (some b, []))
    (hab : a.length = b.length)
    (hxp : XRayPower snb (some pc) "COM" = .ok (some ts, some pc.powerECOM, []))
    (hsh : List.Forall₂ (fun r s : List ℚ => r.length = s.length) pc.powerECOM pc.powerERMS)
    (he : pc.lasingenergyperbunchECOM.length = pc.lasingenergyperbunchERMS.length) :
    methodPowerW pc "RMSCOM" j
      = .ok (some (List.zipWith (fun x y => (x + y) / 2) a b), [])
    ∧ XRayPower snb (some pc) "RMSCOM"
      = .ok (some ts, some (List.zipWith (List.zipWith (fun x y => (x + y) / 2))
          pc.powerECOM pc.powerERMS), [])
    ∧ XRayEnergyPerBunch (some pc) "RMSCOM"
      = .ok (some (List.zipWith (fun x y => (x + y) / 2)
          pc.lasingenergyperbunchECOM pc.lasingenergyperbunchERMS), []) := by
  have hCOM' : (match pyGetIdx pc.powerECOM j with
      | .error e => (.error e : Except PyErr (Option (List ℚ) × List Warn))
      | .ok p => .ok (some p, [])) = .ok (some a, []) := hCOM
  have hRMS' : (match pyGetIdx pc.powerERMS j with
      | .error e => (.error e : Except PyErr (Option (List ℚ) × List Warn))
      | .ok p => .ok (some p, [])) = .ok (some b, []) := hRMS
  have ha : pyGetIdx pc.powerECOM j = .ok a := by
    cases hE : pyGetIdx pc.powerECOM j with
    | error e => rw [hE] at hCOM'; cases hCOM'
    | ok p =>
      rw [hE] at hCOM'
      simp at hCOM'
      rw [hCOM']
  have hb : pyGetIdx pc.powerERMS j = .ok b := by
    cases hE : pyGetIdx pc.powerERMS j with
    | error e => rw [hE] at hRMS'; cases hRMS'
    | ok p =>
      rw [hE] at hRMS'
      simp at hRMS'
      rw [hRMS']
  refine ⟨?_, ?_, ?_⟩
  · show (match pyGetIdx pc.powerECOM j, pyGetIdx pc.powerERMS j with
      | .ok a', .ok b' =>
        match npAdd a' b' with
        | .error e => (.error e : Except PyErr (Option (List ℚ) × List Warn))
        | .ok s => .ok (some (s.map (fun x => x / 2)), [])
      | .error e, _ => .error e
      | _, .error e => .error e) = _
    rw [ha, hb]
    show (match npAdd a b with
      | .error e => (.error e : Except PyErr (Option (List ℚ) × List Warn))
      | .ok s => .ok (some (s.map (fun x => x / 2)), [])) = _
    rw [npAdd_eq a b hab]
    show Except.ok (some ((List.zipWith (· + ·) a b).map (fun x => x / 2)), ([] : List Warn)) = _
    rw [map_div2_zipWith_add]
  · have hz : ¬ snb < 0 := by
      intro hlt
      rw [show XRayPower snb (some pc) "COM"
          = (match npZeros snb with
             | .error e => .error e
             | .ok _ =>
               match exMapM (fun (j' : ℕ) =>
                   match pyGetIdx pc.bunchdelay (j' : ℤ) with
                   | .error e => .error e
                   | .ok d => .ok (pc.t.map (fun x => x + d)))
                 (List.range snb.toNat) with
               | .error e => .error e
               | .ok ts' => .ok (some ts', some pc.powerECOM, [])) from rfl,
        npZeros, if_pos hlt] at hxp
      cases hxp
    have hznp : npZeros snb = .ok (List.replicate snb.toNat 0) := by
      rw [npZeros, if_neg hz]
    have hxp' : (match exMapM (fun (j' : ℕ) =>
          match pyGetIdx pc.bunchdelay (j' : ℤ) with
          | .error e => .error e
          | .ok d => .ok (pc.t.map (fun x => x + d)))
        (List.range snb.toNat) with
      | .error e => (.error e :
          Except PyErr (Option (List (List ℚ)) × Option (List (List ℚ)) × List Warn))
      | .ok ts' => .ok (some ts', some pc.powerECOM, [])) = .ok (some ts, some pc.powerECOM, []) := by
      rw [show XRayPower snb (some pc) "COM"
          = (match npZeros snb with
             | .error e => .error e
             | .ok _ =>
               match exMapM (fun (j' : ℕ) =>
                   match pyGetIdx pc.bunchdelay (j' : ℤ) with
                   | .error e => .error e
                   | .ok d => .ok (pc.t.map (fun x => x + d)))
                 (List.range snb.toNat) with
               | .error e => .error e
               | .ok ts' => .ok (some ts', some pc.powerECOM, [])) from rfl,
        hznp] at hxp
      exact hxp
    have hts : exMapM (fun (j' : ℕ) =>
          match pyGetIdx pc.bunchdelay (j' : ℤ) with
          | .error e => .error e
          | .ok d => .ok (pc.t.map (fun x => x + d)))
        (List.range snb.toNat) = .ok ts := by
      cases hE : exMapM (fun (j' : ℕ) =>
          match pyGetIdx pc.bunchdelay (j' : ℤ) with
          | .error e => .error e
          | .ok d => .ok (pc.t.map (fun x => x + d)))
        (List.range snb.toNat) with
      | error e => rw [hE] at hxp'; cases hxp'
      | ok ts' =>
        rw [hE] at hxp'
        simp at hxp'
        rw [hxp']
    show (match npZeros snb with
      | .error e => (.error e :
          Except PyErr (Option (List (List ℚ)) × Option (List (List ℚ)) × List Warn))
      | .ok _ =>
        match exMapM (fun (j' : ℕ) =>
            match pyGetIdx pc.bunchdelay (j' : ℤ) with
            | .error e => .error e
            | .ok d => .ok (pc.t.map (fun x => x + d)))
          (List.range snb.toNat) with
        | .error e => .error e
        | .ok ts' =>
          match npAdd2 pc.powerECOM pc.powerERMS with
          | .error e => .error e
          | .ok s => .ok (some ts', some (s.map (List.map (fun x => x / 2))), [])) = _
    rw [hznp]
    show (match exMapM (fun (j' : ℕ) =>
          match pyGetIdx pc.bunchdelay (j' : ℤ) with
          | .error e => .error e
          | .ok d => .ok (pc.t.map (fun x => x + d)))
        (List.range snb.toNat) with
      | .error e => (.error e :
          Except PyErr (Option (List (List ℚ)) × Option (List (List ℚ)) × List Warn))
      | .ok ts' =>
        match npAdd2 pc.powerECOM pc.powerERMS with
        | .error e => .error e
        | .ok s => .ok (some ts', some (s.map (List.map (fun x => x / 2))), [])) = _
    rw [hts]
    show (match npAdd2 pc.powerECOM pc.powerERMS with
      | .error e => (.error e :
          Except PyErr (Option (List (List ℚ)) × Option (List (List ℚ)) × List Warn))
      | .ok s => .ok (some ts, some (s.map (List.map (fun x => x / 2))), [])) = _
    rw [npAdd2_eq pc.powerECOM pc.powerERMS hsh]
    show Except.ok (some ts,
        some ((List.zipWith (List.zipWith (· + ·)) pc.powerECOM pc.powerERMS).map
          (List.map (fun x => x / 2))), ([] : List Warn)) = _
    rw [map_map_div2_zipWith2]
  · show (match npAdd pc.lasingenergyperbunchECOM pc.lasingenergyperbunchERMS with
      | .error e => (.error e : Except PyErr (Option (List ℚ) × List Warn))
      | .ok s => .ok (some (s.map (fun x => x / 2)), [])) = _
    rw [npAdd_eq _ _ he]
    show Except.ok (some ((List.zipWith (· + ·) pc.lasingenergyperbunchECOM
        pc.lasingenergyperbunchERMS).map (fun x => x / 2)), ([] : List Warn)) = _
    rw [map_div2_zipWith_add]

/-- Witness for `C3_rmscom_is_mean_of_com_and_rms` at `pcOneBunch`,
bunch 0, instance bunch count 1. -/
theorem C3_rmscom_is_mean_of_com_and_rms_witness :
    methodPowerW pcOneBunch "RMSCOM" 0
      = .ok (some (List.zipWith (fun x y => (x + y) / 2) [0, 2, 4, 2, 0] [0, 4, 4, 4, 0]), [])
    ∧ XRayPower 1 (some pcOneBunch) "RMSCOM"
      = .ok (some [[0, 1, 2, 3, 4]],
          some (List.zipWith (List.zipWith (fun x y => (x + y) / 2))
            pcOneBunch.powerECOM pcOneBunch.powerERMS), [])
    ∧ XRayEnergyPerBunch (some pcOneBunch) "RMSCOM"
      = .ok (some (List.zipWith (fun x y => (x + y) / 2)
          pcOneBunch.lasingenergyperbunchECOM pcOneBunch.lasingenergyperbunchERMS), []) :=
  C3_rmscom_is_mean_of_com_and_rms pcOneBunch 1 0 [0, 2, 4, 2, 0] [0, 4, 4, 4, 0]
    [[0, 1, 2, 3, 4]]
    (by with_unfolding_all rfl)
    (by with_unfolding_all rfl)
    (by rfl)
    (by with_unfolding_all rfl)
    (.cons (by rfl) .nil)
    (by rfl)

/-- Claim C5: the saturation gate is the first check of `setImageProfile`:
a raw maximum at or above the saturation value returns with no profile
stored — independently of every downstream input, hence before background
subtraction, denoising or profile extraction can matter — and
`processEvent` then produces no pulse characterization either; a maximum
strictly below saturation hands the event unchanged to the rest of the
pipeline, so the saturation check alone never rejects it. -/
theorem C5_saturation_gate (minROI snb : ℤ) (inp : EventInputs) (loref : Bool)
    (rec : Option PulseCharacterization) (mx : ℚ)
    (hmx : npMax2 inp.rawimage = .ok mx) :
    (inp.saturation_value ≤ mx →
      setImageProfile minROI snb inp = .ok none
      ∧ processEvent minROI snb inp loref rec = .ok (false, none, none))
    ∧ (mx < inp.saturation_value →
      setImageProfile minROI snb inp = setImageProfileRest minROI snb inp) := by
  have hunf : setImageProfile minROI snb inp
      = (match npMax2 inp.rawimage with
         | .error e => .error e
         | .ok m =>
           if inp.saturation_value ≤ m then .ok none
           else setImageProfileRest minROI snb inp) := rfl
  constructor
  · intro hsat
    have hsp : setImageProfile minROI snb inp = .ok none := by
      rw [hunf, hmx]
      show (if inp.saturation_value ≤ mx then (Except.ok none : Except PyErr (Option ImageProfile))
        else setImageProfileRest minROI snb inp) = _
      rw [if_pos hsat]
    refine ⟨hsp, ?_⟩
    have hpe : processEvent minROI snb inp loref rec
        = (match setImageProfile minROI snb inp with
           | .error e => .error e
           | .ok none => .ok (false, none, none)
           | .ok (some p) =>
             if loref = false then .ok (false, some p, none)
             else
               match rec with
               | none => .ok (false, some p, none)
               | some pc => .ok (true, some p, some pc)) := rfl
    rw [hpe, hsp]
  · intro hlt
    rw [hunf, hmx]
    show (if inp.saturation_value ≤ mx then (Except.ok none : Except PyErr (Option ImageProfile))
      else setImageProfileRest minROI snb inp) = _
    rw [if_neg (not_le.2 hlt)]

/-- Witness for `C5_saturation_gate` at the saturated event
`inpSaturated` (max 20, threshold 10). -/
theorem C5_saturation_gate_witness :
    npMax2 inpSaturated.rawimage = .ok 20
    ∧ ((inpSaturated.saturation_value ≤ 20 →
        setImageProfile 2 1 inpSaturated = .ok none
        ∧ processEvent 2 1 inpSaturated true none = .ok (false, none, none))
      ∧ (20 < inpSaturated.saturation_value →
        setImageProfile 2 1 inpSaturated = setImageProfileRest 2 1 inpSaturated)) :=
  ⟨by rfl, C5_saturation_gate 2 1 inpSaturated true none 20 (by rfl)⟩

/-- Claim C6 (amended): for every method string other than `RMS`, `COM`
and `RMSCOM`, provided the pulse characterization exists with at least one
bunch (so the dispatch is reached) and its delay table is consistent,
`PulseDelay` and `PulseFWHM` return `None`, `XRayPower` returns `None`
power (beside the already-built time matrix) and `XRayEnergyPerBunch`
returns `None`, each together with the unsupported-method warning; the
embedded methods read state without writing any of it.  (When
`num_bunches < 1` the bunch-count guard answers first with an empty array
and no warning — see the counterexample.) -/
theorem C6_unsupported_method_no_result (pc : PulseCharacterization) (snb : ℤ)
    (method : String)
    (h1 : method ≠ "RMS") (h2 : method ≠ "COM") (h3 : method ≠ "RMSCOM")
    (hnb : 1 ≤ pc.num_bunches)
    (hbd : pc.bunchdelay ≠ [])
    (hsnb : 0 ≤ snb) (hsnb2 : snb.toNat ≤ pc.bunchdelay.length) :
    PulseDelay (some pc) method = .ok (none, [Warn.unsupportedMethod method])
    ∧ PulseFWHM (some pc) method = .ok (none, [Warn.unsupportedMethod method])
    ∧ XRayPower snb (some pc) method
      = .ok (some ((List.range snb.toNat).map
          (fun j => pc.t.map (fun x => x + pc.bunchdelay.getD j 0))),
          none, [Warn.unsupportedMethod method])
    ∧ XRayEnergyPerBunch (some pc) method
      = .ok (none, [Warn.unsupportedMethod method]) := by
  obtain ⟨d, ds, hds⟩ : ∃ d ds, pc.bunchdelay = d :: ds := by
    cases hb : pc.bunchdelay with
    | nil => exact absurd hb hbd
    | cons d ds => exact ⟨d, ds, rfl⟩
  have hd0 : pyGetIdx pc.bunchdelay 0 = .ok d := by
    rw [hds]; exact pyGetIdx_zero d ds
  have hmp := methodPowerW_unsupported pc method 0 h1 h2 h3
  obtain ⟨m, hm⟩ : ∃ m, pc.num_bunches.toNat = m + 1 :=
    ⟨pc.num_bunches.toNat - 1, by omega⟩
  have hbodyD : pulseDelayBody pc method 0 = .ok (none, [Warn.unsupportedMethod method]) := by
    rw [show pulseDelayBody pc method 0
        = (match pyGetIdx pc.bunchdelay 0 with
           | .error e => .error e
           | .ok d' =>
             match methodPowerW pc method 0 with
             | .error e => .error e
             | .ok (none, ws) => .ok (none, ws)
             | .ok (some power, _) =>
               match npArgmax power with
               | .error e => .error e
               | .ok central =>
                 match polyfit2 (pySlice (pc.t.map (fun x => x + d')) (central-2) (central+3))
                                (pySlice power (central-2) (central+3)) with
                 | .error _ => .ok (none, [])
                 | .ok (a, b, _) => .ok (some (-b / (2*a)), [])) from rfl,
      hd0, hmp]
  have hbodyF : pulseFWHMBody pc method 0 = .ok (none, [Warn.unsupportedMethod method]) := by
    rw [show pulseFWHMBody pc method 0
        = (match pyGetIdx pc.bunchdelay 0 with
           | .error e => .error e
           | .ok d' =>
             match methodPowerW pc method 0 with
             | .error e => .error e
             | .ok (none, ws) => .ok (none, ws)
             | .ok (some power, _) =>
               match npMax power with
               | .error e => .error e
               | .ok mx =>
                 match npBoolIndex (pc.t.map (fun x => x + d'))
                     (power.map (fun x => decide (mx / 2 ≤ x))) with
                 | .error e => .error e
                 | .ok abovethrestimes =>
                   match pyGetIdx (pc.t.map (fun x => x + d')) 1,
                         pyGetIdx (pc.t.map (fun x => x + d')) 0 with
                   | .ok t1, .ok t0 =>
                     match pyGetIdx abovethrestimes (-1), pyGetIdx abovethrestimes 0 with
                     | .ok lastAb, .ok firstAb => .ok (some (lastAb - firstAb + (t1 - t0)), [])
                     | .error e, _ => .error e
                     | _, .error e => .error e
                   | .error e, _ => .error e
                   | _, .error e => .error e) from rfl,
      hd0, hmp]
  have hrange : List.range pc.num_bunches.toNat = 0 :: (List.range m).map Nat.succ := by
    rw [hm, List.range_succ_eq_map]
  have hnblt : ¬ pc.num_bunches < 1 := by omega
  refine ⟨?_, ?_, ?_, ?_⟩
  · rw [show PulseDelay (some pc) method
        = (if pc.num_bunches < 1 then
            match npZeros pc.num_bunches with
            | .error e => .error e
            | .ok z => .ok (some z, [])
          else metricLoop (fun j => pulseDelayBody pc method (j : ℤ))
            (List.range pc.num_bunches.toNat)) from rfl,
      if_neg hnblt, hrange, metricLoop]
    simp only [Nat.cast_zero, hbodyD]
  · rw [show PulseFWHM (some pc) method
        = (if pc.num_bunches < 1 then
            match npZeros pc.num_bunches with
            | .error e => .error e
            | .ok z => .ok (some z, [])
          else metricLoop (fun j => pulseFWHMBody pc method (j : ℤ))
            (List.range pc.num_bunches.toNat)) from rfl,
      if_neg hnblt, hrange, metricLoop]
    simp only [Nat.cast_zero, hbodyF]
  · have hznp : npZeros snb = .ok (List.replicate snb.toNat 0) := by
      rw [npZeros, if_neg (by omega)]
    have hts : exMapM (fun (j : ℕ) =>
          match pyGetIdx pc.bunchdelay (j : ℤ) with
          | .error e => .error e
          | .ok d' => .ok (pc.t.map (fun x => x + d')))
        (List.range snb.toNat)
        = .ok ((List.range snb.toNat).map
            (fun j => pc.t.map (fun x => x + pc.bunchdelay.getD j 0))) := by
      apply exMapM_ok
      intro j hj
      have hjlen : j < pc.bunchdelay.length := by
        have := List.mem_range.1 hj
        omega
      rw [pyGetIdx_nat pc.bunchdelay j 0 hjlen]
    rw [show XRayPower snb (some pc) method
        = (match npZeros snb with
           | .error e => .error e
           | .ok _ =>
             match exMapM (fun (j : ℕ) =>
                 match pyGetIdx pc.bunchdelay (j : ℤ) with
                 | .error e => .error e
                 | .ok d' => .ok (pc.t.map (fun x => x + d')))
               (List.range snb.toNat) with
             | .error e => .error e
             | .ok ts =>
               if method = "RMS" then .ok (some ts, some pc.powerERMS, [])
               else if method = "COM" then .ok (some ts, some pc.powerECOM, [])
               else if method = "RMSCOM" then
                 match npAdd2 pc.powerECOM pc.powerERMS with
                 | .error e => .error e
                 | .ok s => .ok (some ts, some (s.map (List.map (fun x => x / 2))), [])
               else .ok (some ts, none, [Warn.unsupportedMethod method])) from rfl,
      hznp]
    show (match exMapM (fun (j : ℕ) =>
          match pyGetIdx pc.bunchdelay (j : ℤ) with
          | .error e => .error e
          | .ok d' => .ok (pc.t.map (fun x => x + d')))
        (List.range snb.toNat) with
      | .error e => (.error e :
          Except PyErr (Option (List (List ℚ)) × Option (List (List ℚ)) × List Warn))
      | .ok ts =>
        if method = "RMS" then .ok (some ts, some pc.powerERMS, [])
        else if method = "COM" then .ok (some ts, some pc.powerECOM, [])
        else if method = "RMSCOM" then
          match npAdd2 pc.powerECOM pc.powerERMS with
          | .error e => .error e
          | .ok s => .ok (some ts, some (s.map (List.map (fun x => x / 2))), [])
        else .ok (some ts, none, [Warn.unsupportedMethod method])) = _
    rw [hts]
    show (if method = "RMS" then
        (.ok (some ((List.range snb.toNat).map
            (fun j => pc.t.map (fun x => x + pc.bunchdelay.getD j 0))),
          some pc.powerERMS, []) :
          Except PyErr (Option (List (List ℚ)) × Option (List (List ℚ)) × List Warn))
      else if method = "COM" then
        .ok (some ((List.range snb.toNat).map
            (fun j => pc.t.map (fun x => x + pc.bunchdelay.getD j 0))),
          some pc.powerECOM, [])
      else if method = "RMSCOM" then
        match npAdd2 pc.powerECOM pc.powerERMS with
        | .error e => .error e
        | .ok s =>
          .ok (some ((List.range snb.toNat).map
              (fun j => pc.t.map (fun x => x + pc.bunchdelay.getD j 0))),
            some (s.map (List.map (fun x => x / 2))), [])
      else
        .ok (some ((List.range snb.toNat).map
            (fun j => pc.t.map (fun x => x + pc.bunchdelay.getD j 0))),
          none, [Warn.unsupportedMethod method])) = _
    rw [if_neg h1, if_neg h2, if_neg h3]
  · rw [show XRayEnergyPerBunch (some pc) method
        = (if method = "RMS" then .ok (some pc.lasingenergyperbunchERMS, [])
           else if method = "COM" then .ok (some pc.lasingenergyperbunchECOM, [])
           else if method = "RMSCOM" then
             match npAdd pc.lasingenergyperbunchECOM pc.lasingenergyperbunchERMS with
             | .error e => .error e
             | .ok s => .ok (some (s.map (fun x => x / 2)), [])
           else .ok (none, [Warn.unsupportedMethod method])) from rfl,
      if_neg h1, if_neg h2, if_neg h3]

theorem pySlice_length {α : Type} (l : List α) (a b : ℤ) (h0 : 0 ≤ a) (hab : a ≤ b)
    (hbl : b ≤ (l.length : ℤ)) : (pySlice l a b).length = (b - a).toNat := by
  have ha' : ¬ a < 0 := not_lt.2 h0
  have hb' : ¬ b < 0 := by omega
  simp only [pySlice, pySliceIdx, ha', hb', if_false]
  rw [List.length_take, List.length_drop]
  omega

theorem fourierBody_congr (F G : List ℚ → Except PyErr (List ℚ))
    (hFG : ∀ P : List ℚ, fourierCenter F P = fourierCenter G P)
    (t : List ℚ) (stats : List ImageStats) (tf : ℚ) (j : ℤ) :
    fourierBody F t stats tf j = fourierBody G t stats tf j := by
  unfold fourierBody
  cases pyGetIdx stats j with
  | error e => rfl
  | ok s =>
    simp only []
    cases npMax s.xProfile with
    | error e => rfl
    | ok mx =>
      simp only []
      rw [hFG (threshProfile s.xProfile mx tf)]

theorem fourierLoop_congr (F G : List ℚ → Except PyErr (List ℚ))
    (hFG : ∀ P : List ℚ, fourierCenter F P = fourierCenter G P)
    (t : List ℚ) (stats : List ImageStats) (tf : ℚ) :
    ∀ l : List ℕ, fourierLoop F t stats tf l = fourierLoop G t stats tf l := by
  intro l
  induction l with
  | nil => rfl
  | cons j rest ih =>
    rw [fourierLoop, fourierLoop, fourierBody_congr F G hFG t stats tf (j : ℤ), ih]

/-- Witness for `C6_unsupported_method_no_result` at `pcOneBunch`,
method `"FOO"`, instance bunch count 1. -/
theorem C6_unsupported_method_no_result_witness :
    PulseDelay (some pcOneBunch) "FOO" = .ok (none, [Warn.unsupportedMethod "FOO"])
    ∧ PulseFWHM (some pcOneBunch) "FOO" = .ok (none, [Warn.unsupportedMethod "FOO"])
    ∧ XRayPower 1 (some pcOneBunch) "FOO"
      = .ok (some ((List.range (1:ℤ).toNat).map
          (fun j => pcOneBunch.t.map (fun x => x + pcOneBunch.bunchdelay.getD j 0))),
          none, [Warn.unsupportedMethod "FOO"])
    ∧ XRayEnergyPerBunch (some pcOneBunch) "FOO"
      = .ok (none, [Warn.unsupportedMethod "FOO"]) :=
  C6_unsupported_method_no_result pcOneBunch 1 "FOO"
    (by simp) (by simp) (by simp)
    (by norm_num [pcOneBunch])
    (by simp [pcOneBunch])
    (by norm_num)
    (by simp [pcOneBunch])

/-- Claim C7: in the Fourier-filtered delay, a bunch's final value is the
quadratic vertex `-B/(2A)` of a `polyfit2` run on a window of the
*original* `xProfile` (5 samples when the window is interior, conjunct 2);
the thresholded, low-pass-filtered profile enters only through
`fourierCenter` — the argmax that places the window — so two filters with
equal argmax behaviour make the whole method agree (conjunct 3). -/
theorem C7_fourier_filter_only_selects_window
    (F G : List ℚ → Except PyErr (List ℚ)) (st : S2SState) (p : ImageProfile)
    (tw tf : ℚ) (j central : ℤ) (s : ImageStats) (mx A B C0 : ℚ)
    (hFG : ∀ P : List ℚ, fourierCenter F P = fourierCenter G P)
    (hs : pyGetIdx p.image_stats j = .ok s)
    (hmx : npMax s.xProfile = .ok mx)
    (hcen : fourierCenter F (threshProfile s.xProfile mx tf) = .ok central)
    (hfit : polyfit2 (pySlice p.physical_units.xfs (central-2) (central+3))
        (pySlice s.xProfile (central-2) (central+3)) = .ok (A, B, C0))
    (hw1 : 2 ≤ central) (hw2 : central + 3 ≤ (s.xProfile.length : ℤ)) :
    fourierBody F p.physical_units.xfs p.image_stats tf j = .ok (some (-B / (2*A)))
    ∧ (pySlice s.xProfile (central-2) (central+3)).length = 5
    ∧ InterBunchPulseDelayBasedOnCurrentFourierFiltered F st tw tf
      = InterBunchPulseDelayBasedOnCurrentFourierFiltered G st tw tf := by
  refine ⟨?_, ?_, ?_⟩
  · show (match pyGetIdx p.image_stats j with
      | .error e => (.error e : Except PyErr (Option ℚ))
      | .ok s' =>
        match npMax s'.xProfile with
        | .error e => .error e
        | .ok mx' =>
          match fourierCenter F (threshProfile s'.xProfile mx' tf) with
          | .error e => .error e
          | .ok central' =>
            match polyfit2 (pySlice p.physical_units.xfs (central'-2) (central'+3))
                           (pySlice s'.xProfile (central'-2) (central'+3)) with
            | .error _ => .ok none
            | .ok (a, b, _) => .ok (some (-b / (2*a)))) = _
    rw [hs]
    show (match npMax s.xProfile with
      | .error e => (.error e : Except PyErr (Option ℚ))
      | .ok mx' =>
        match fourierCenter F (threshProfile s.xProfile mx' tf) with
        | .error e => .error e
        | .ok central' =>
          match polyfit2 (pySlice p.physical_units.xfs (central'-2) (central'+3))
                         (pySlice s.xProfile (central'-2) (central'+3)) with
          | .error _ => .ok none
          | .ok (a, b, _) => .ok (some (-b / (2*a)))) = _
    rw [hmx]
    show (match fourierCenter F (threshProfile s.xProfile mx tf) with
      | .error e => (.error e : Except PyErr (Option ℚ))
      | .ok central' =>
        match polyfit2 (pySlice p.physical_units.xfs (central'-2) (central'+3))
                       (pySlice s.xProfile (central'-2) (central'+3)) with
        | .error _ => .ok none
        | .ok (a, b, _) => .ok (some (-b / (2*a)))) = _
    rw [hcen]
    show (match polyfit2 (pySlice p.physical_units.xfs (central-2) (central+3))
                         (pySlice s.xProfile (central-2) (central+3)) with
      | .error _ => (.ok none : Except PyErr (Option ℚ))
      | .ok (a, b, _) => .ok (some (-b / (2*a)))) = _
    rw [hfit]
  · rw [pySlice_length s.xProfile (central-2) (central+3) (by omega) (by omega) (by omega)]
    omega
  · show (match st.image_profile with
      | none => (.ok (none, [Warn.noImageProfile]) :
          Except PyErr (Option (List ℚ) × List Warn))
      | some p' =>
        if |p'.physical_units.xfsPerPix| * (p'.physical_units.xfs.length : ℚ) = 0 then
          .ok (none, [])
        else
          match npZeros st.num_bunches with
          | .error e => .error e
          | .ok _ =>
            match fourierLoop F p'.physical_units.xfs p'.image_stats tf
                (List.range st.num_bunches.toNat) with
            | .error e => .error e
            | .ok none => .ok (none, [])
            | .ok (some vs) => .ok (some vs, []))
      = (match st.image_profile with
      | none => (.ok (none, [Warn.noImageProfile]) :
          Except PyErr (Option (List ℚ) × List Warn))
      | some p' =>
        if |p'.physical_units.xfsPerPix| * (p'.physical_units.xfs.length : ℚ) = 0 then
          .ok (none, [])
        else
          match npZeros st.num_bunches with
          | .error e => .error e
          | .ok _ =>
            match fourierLoop G p'.physical_units.xfs p'.image_stats tf
                (List.range st.num_bunches.toNat) with
            | .error e => .error e
            | .ok none => .ok (none, [])
            | .ok (some vs) => .ok (some vs, []))
    cases st.image_profile with
    | none => rfl
    | some p' =>
      simp only []
      by_cases hz : |p'.physical_units.xfsPerPix| * (p'.physical_units.xfs.length : ℚ) = 0
      · rw [if_pos hz, if_pos hz]
      · rw [if_neg hz, if_neg hz,
          fourierLoop_congr F G hFG p'.physical_units.xfs p'.image_stats tf
            (List.range st.num_bunches.toNat)]

/-- Witness for `C7_fourier_filter_only_selects_window` with the identity
filter on the exact parabola profile `[0,3,4,3,0]` (argmax 2, fit
`-x^2 + 4x`, vertex 2). -/
theorem C7_fourier_filter_only_selects_window_witness :
    fourierBody (fun l => .ok l) profParabola.physical_units.xfs
      profParabola.image_stats 0 0 = .ok (some (-(4:ℚ) / (2 * (-1))))
    ∧ (pySlice statsParabola.xProfile ((2:ℤ)-2) ((2:ℤ)+3)).length = 5
    ∧ InterBunchPulseDelayBasedOnCurrentFourierFiltered (fun l => .ok l) stParabola 20 0
      = InterBunchPulseDelayBasedOnCurrentFourierFiltered (fun l => .ok l) stParabola 20 0 :=
  C7_fourier_filter_only_selects_window (fun l => .ok l) (fun l => .ok l) stParabola
    profParabola 20 0 0 2 statsParabola
    4 (-1) 4 0
    (fun _ => rfl)
    (by rfl)
    (by rfl)
    (by with_unfolding_all rfl)
    (by with_unfolding_all rfl)
    (by norm_num)
    (by norm_num [statsParabola])

theorem getD_map_add (l : List ℚ) (d : ℚ) (i : ℕ) (h : i < l.length) :
    (l.map (fun x => x + d)).getD i 0 = l.getD i 0 + d := by
  rw [List.getD_eq_getElem (l.map (fun x => x + d)) 0 (by simpa using h),
    List.getD_eq_getElem l 0 h]
  simp

/-- Evaluation of the `PulseFWHM` loop body under the hypotheses the FWHM
claim presupposes: a well-formed bunch `j`, a selected power trace `P` of
the same length as the master axis, a nonnegative maximum (so at least one
sample reaches half maximum), at least two time samples and a uniform
step `dt`. -/
theorem pulseFWHMBody_halfMaxSpan (pc : PulseCharacterization) (method : String)
    (j : ℕ) (P : List ℚ) (dt : ℚ)
    (hbd : j < pc.bunchdelay.length)
    (hP : methodPowerW pc method (j : ℤ) = .ok (some P, []))
    (hlen : P.length = pc.t.length)
    (hpos : 0 ≤ listMax P)
    (ht2 : 2 ≤ pc.t.length)
    (huni : pc.t.getD 1 0 - pc.t.getD 0 0 = dt) :
    pulseFWHMBody pc method (j : ℤ)
      = .ok (some (halfMaxSpan (pc.t.map (fun x => x + pc.bunchdelay.getD j 0)) P dt), []) := by
  set d := pc.bunchdelay.getD j 0 with hdref
  set t' := pc.t.map (fun x => x + d) with htref
  have hd : pyGetIdx pc.bunchdelay (j : ℤ) = .ok d := pyGetIdx_nat pc.bunchdelay j 0 hbd
  have hne : P ≠ [] := by
    intro hnil
    rw [hnil] at hlen
    simp at hlen
    omega
  have hmax : npMax P = .ok (listMax P) := by
    cases P with
    | nil => exact absurd rfl hne
    | cons x xs => rfl
  have htlen : t'.length = P.length := by
    rw [htref, List.length_map, hlen]
  have hbi : npBoolIndex t' (P.map (fun x => decide (listMax P / 2 ≤ x)))
      = .ok (halfMaxTimes t' P) := by
    rw [npBoolIndex, if_pos (by rw [htlen, List.length_map])]
    exact congrArg Except.ok (filter_zip_map_snd (fun x => decide (listMax P / 2 ≤ x)) t' P)
  have hqne : halfMaxTimes t' P ≠ [] := by
    rw [halfMaxTimes]
    intro hmapnil
    have hfilnil := List.map_eq_nil_iff.1 hmapnil
    exact zip_filter_ne_nil (fun x => decide (listMax P / 2 ≤ x)) t' P htlen
      ⟨listMax P, listMax_mem P hne, decide_eq_true (by linarith)⟩ hfilnil
  have ht1 : pyGetIdx t' 1 = .ok (t'.getD 1 0) := by
    have h := pyGetIdx_nat t' 1 0 (by rw [htlen, hlen]; omega)
    simpa using h
  have ht0 : pyGetIdx t' 0 = .ok (t'.getD 0 0) := by
    have h := pyGetIdx_nat t' 0 0 (by rw [htlen, hlen]; omega)
    simpa using h
  have hlast : pyGetIdx (halfMaxTimes t' P) (-1)
      = .ok ((halfMaxTimes t' P).getLastD 0) := pyGetIdx_neg_one _ 0 hqne
  have hfirst : pyGetIdx (halfMaxTimes t' P) 0
      = .ok ((halfMaxTimes t' P).headD 0) := by
    cases hq : halfMaxTimes t' P with
    | nil => exact absurd hq hqne
    | cons q qs => rw [pyGetIdx_zero]; rfl
  have hdt : t'.getD 1 0 - t'.getD 0 0 = dt := by
    rw [htref, getD_map_add pc.t d 1 (by omega), getD_map_add pc.t d 0 (by omega)]
    linarith
  show (match pyGetIdx pc.bunchdelay (j : ℤ) with
    | .error e => (.error e : Except PyErr (Option ℚ × List Warn))
    | .ok d' =>
      match methodPowerW pc method (j : ℤ) with
      | .error e => .error e
      | .ok (none, ws) => .ok (none, ws)
      | .ok (some power, _) =>
        match npMax power with
        | .error e => .error e
        | .ok mx =>
          match npBoolIndex (pc.t.map (fun x => x + d'))
              (power.map (fun x => decide (mx / 2 ≤ x))) with
          | .error e => .error e
          | .ok abovethrestimes =>
            match pyGetIdx (pc.t.map (fun x => x + d')) 1,
                  pyGetIdx (pc.t.map (fun x => x + d')) 0 with
            | .ok t1, .ok t0 =>
              match pyGetIdx abovethrestimes (-1), pyGetIdx abovethrestimes 0 with
              | .ok lastAb, .ok firstAb => .ok (some (lastAb - firstAb + (t1 - t0)), [])
              | .error e, _ => .error e
              | _, .error e => .error e
            | .error e, _ => .error e
            | _, .error e => .error e) = _
  rw [hd]
  show (match methodPowerW pc method (j : ℤ) with
    | .error e => (.error e : Except PyErr (Option ℚ × List Warn))
    | .ok (none, ws) => .ok (none, ws)
    | .ok (some power, _) =>
      match npMax power with
      | .error e => .error e
      | .ok mx =>
        match npBoolIndex t' (power.map (fun x => decide (mx / 2 ≤ x))) with
        | .error e => .error e
        | .ok abovethrestimes =>
          match pyGetIdx t' 1, pyGetIdx t' 0 with
          | .ok t1, .ok t0 =>
            match pyGetIdx abovethrestimes (-1), pyGetIdx abovethrestimes 0 with
            | .ok lastAb, .ok firstAb => .ok (some (lastAb - firstAb + (t1 - t0)), [])
            | .error e, _ => .error e
            | _, .error e => .error e
          | .error e, _ => .error e
          | _, .error e => .error e) = _
  rw [hP]
  show (match npMax P with
    | .error e => (.error e : Except PyErr (Option ℚ × List Warn))
    | .ok mx =>
      match npBoolIndex t' (P.map (fun x => decide (mx / 2 ≤ x))) with
      | .error e => .error e
      | .ok abovethrestimes =>
        match pyGetIdx t' 1, pyGetIdx t' 0 with
        | .ok t1, .ok t0 =>
          match pyGetIdx abovethrestimes (-1), pyGetIdx abovethrestimes 0 with
          | .ok lastAb, .ok firstAb => .ok (some (lastAb - firstAb + (t1 - t0)), [])
          | .error e, _ => .error e
          | _, .error e => .error e
        | .error e, _ => .error e
        | _, .error e => .error e) = _
  rw [hmax]
  show (match npBoolIndex t' (P.map (fun x => decide (listMax P / 2 ≤ x))) with
    | .error e => (.error e : Except PyErr (Option ℚ × List Warn))
    | .ok abovethrestimes =>
      match pyGetIdx t' 1, pyGetIdx t' 0 with
      | .ok t1, .ok t0 =>
        match pyGetIdx abovethrestimes (-1), pyGetIdx abovethrestimes 0 with
        | .ok lastAb, .ok firstAb => .ok (some (lastAb - firstAb + (t1 - t0)), [])
        | .error e, _ => .error e
        | _, .error e => .error e
      | .error e, _ => .error e
      | _, .error e => .error e) = _
  rw [hbi]
  show (match pyGetIdx t' 1, pyGetIdx t' 0 with
    | .ok t1, .ok t0 =>
      match pyGetIdx (halfMaxTimes t' P) (-1), pyGetIdx (halfMaxTimes t' P) 0 with
      | .ok lastAb, .ok firstAb =>
        (.ok (some (lastAb - firstAb + (t1 - t0)), []) :
          Except PyErr (Option ℚ × List Warn))
      | .error e, _ => .error e
      | _, .error e => .error e
    | .error e, _ => .error e
    | _, .error e => .error e) = _
  rw [ht1, ht0]
  show (match pyGetIdx (halfMaxTimes t' P) (-1), pyGetIdx (halfMaxTimes t' P) 0 with
    | .ok lastAb, .ok firstAb =>
      (.ok (some (lastAb - firstAb + (t'.getD 1 0 - t'.getD 0 0)), []) :
        Except PyErr (Option ℚ × List Warn))
    | .error e, _ => .error e
    | _, .error e => .error e) = _
  rw [hlast, hfirst]
  show Except.ok (some ((halfMaxTimes t' P).getLastD 0 - (halfMaxTimes t' P).headD 0
      + (t'.getD 1 0 - t'.getD 0 0)), ([] : List Warn)) = _
  rw [hdt]
  rfl

/-- Claim C8: for a pulse characterization with at least one bunch, a
uniformly spaced master time axis with step `dt`, and per-bunch selected
power traces `P j` (same length as the axis, with the half-maximum level
actually reached), `PulseFWHM` returns for every bunch exactly
`t_last - t_first + dt`, where `t_first`/`t_last` are the times of the
first and last samples whose power is at or above half the trace maximum
(`halfMaxSpan` over `halfMaxTimes`, on that bunch's delay-shifted axis). -/
theorem C8_fwhm_half_max_span (pc : PulseCharacterization) (method : String)
    (k : ℕ) (P : ℕ → List ℚ) (dt : ℚ)
    (hnb : pc.num_bunches = (k : ℤ))
    (hk : 1 ≤ k)
    (hbd : k ≤ pc.bunchdelay.length)
    (hP : ∀ j ∈ List.range k, methodPowerW pc method (j : ℤ) = .ok (some (P j), []))
    (hlen : ∀ j ∈ List.range k, (P j).length = pc.t.length)
    (hpos : ∀ j ∈ List.range k, 0 ≤ listMax (P j))
    (ht2 : 2 ≤ pc.t.length)
    (huni : ∀ i : ℕ, i + 1 < pc.t.length → pc.t.getD (i+1) 0 - pc.t.getD i 0 = dt) :
    PulseFWHM (some pc) method
      = .ok (some ((List.range k).map (fun j =>
          halfMaxSpan (pc.t.map (fun x => x + pc.bunchdelay.getD j 0)) (P j) dt)), []) := by
  have hloop : metricLoop (fun j => pulseFWHMBody pc method (j : ℤ)) (List.range k)
      = .ok (some ((List.range k).map (fun j =>
          halfMaxSpan (pc.t.map (fun x => x + pc.bunchdelay.getD j 0)) (P j) dt)), []) := by
    apply metricLoop_ok
    intro j hj
    have hjk := List.mem_range.1 hj
    exact pulseFWHMBody_halfMaxSpan pc method j (P j) dt (by omega)
      (hP j hj) (hlen j hj) (hpos j hj) ht2 (huni 0 (by omega))
  rw [show PulseFWHM (some pc) method
      = (if pc.num_bunches < 1 then
          match npZeros pc.num_bunches with
          | .error e => .error e
          | .ok z => .ok (some z, [])
        else metricLoop (fun j => pulseFWHMBody pc method (j : ℤ))
          (List.range pc.num_bunches.toNat)) from rfl,
    if_neg (by omega), show pc.num_bunches.toNat = k by omega]
  exact hloop

/-- Witness for `C8_fwhm_half_max_span` at `pcOneBunch` with method
`COM`: trace `[0,2,4,2,0]` on axis `[0,1,2,3,4]`, half maximum 2 reached
from `t = 1` to `t = 3`, so the span is `3 - 1 + 1 = 3`. -/
theorem C8_fwhm_half_max_span_witness :
    PulseFWHM (some pcOneBunch) "COM"
      = .ok (some ((List.range 1).map (fun j =>
          halfMaxSpan (pcOneBunch.t.map (fun x => x + pcOneBunch.bunchdelay.getD j 0))
            ((fun _ => [0, 2, 4, 2, 0]) j) 1)), []) :=
  C8_fwhm_half_max_span pcOneBunch "COM" 1 (fun _ => [0, 2, 4, 2, 0]) 1
    (by rfl)
    (by norm_num)
    (by simp [pcOneBunch])
    (by
      intro j hj
      have hj0 : j = 0 := by simpa [Nat.lt_one_iff] using List.mem_range.1 hj
      subst hj0
      rfl)
    (by
      intro j hj
      rfl)
    (by
      intro j hj
      norm_num [listMax])
    (by norm_num [pcOneBunch])
    (by
      intro i hi
      have hi4 : i < 4 := by
        simp [pcOneBunch] at hi
        omega
      interval_cases i <;> norm_num [pcOneBunch])

end Xtcav
